import Mathlib

/-!
Verification development for the Green Power proxy and OTA negotiator of
`zigpy/zcl/clusters/general.py`.

The Python module is shallowly embedded below.  Machine integers are `Nat`
(Python ints are unbounded; the explicit `to_bytes` overflow checks of the
source are modelled as error results).  Python exceptions are modelled with
`Except String` or with an `error` field carried next to the (unchanged or
partially-updated) state, matching Python semantics where an exception
leaves all mutations performed so far in place.

External collaborators that live outside `general.py` are modelled at their
interface boundary:
  * the AES block cipher (pycryptodome) is a parameter
    `aes : List Nat → List Nat → List Nat` (key, 16-byte block ↦ 16-byte block);
  * the zigpy attribute cache (`Cluster._attr_cache` / `_update_attribute`,
    defined in `zigpy.zcl`, not part of this module) is modelled from the
    spec as a typed record whose update stores the value;
  * the OTA image provider (`application.ota`) is a parameter.
-/

set_option maxRecDepth 8000

/-! ## Byte-level helpers, mirroring Python `int.to_bytes` / `int.from_bytes` -/

/-- Little-endian byte encoding of `n` in exactly `len` bytes
(the truncating core of `n.to_bytes(len, "little")`; the `OverflowError`
raised by Python when `n ≥ 256 ^ len` is checked at each call site). -/
def natToBytesLE : Nat → Nat → List Nat
  | _, 0 => []
  | n, len + 1 => n % 256 :: natToBytesLE (n / 256) len

/-- Big-endian byte encoding, `n.to_bytes(len, "big")`. -/
def natToBytesBE (n len : Nat) : List Nat :=
  (natToBytesLE n len).reverse

/-- Python `int.from_bytes(data, "little")`. -/
def bytesToNatLE : List Nat → Nat
  | [] => 0
  | b :: rest => b + 256 * bytesToNatLE rest

/-- Byte-wise xor of two byte strings (used by the CBC / CTR combination). -/
def xorBytes (a b : List Nat) : List Nat :=
  List.zipWith (fun x y => x ^^^ y) a b

/-! ## ZCL wire types and `t.deserialize`

The only argument types occurring in the Green Power translation table are
`t.uint8_t`, `t.uint16_t` and `t.Optional(t.uint16_t)`.  `t.deserialize`
(zigpy.types, outside this module) walks the schema left to right; a strict
integer type raises `ValueError` when too few bytes remain, while
`t.Optional` catches that `ValueError` and yields `None` with the input
unconsumed.  Modelled from the spec: required fields deserialized strictly,
optional trailing fields greedily while bytes remain. -/

inductive ZType
  | u8
  | u16
  | optU16
deriving Repr, DecidableEq

def deserializeType : ZType → List Nat → Except String (Option Nat × List Nat)
  | .u8, b :: rest => .ok (some b, rest)
  | .u8, [] => .error "ValueError"
  | .u16, b0 :: b1 :: rest => .ok (some (b0 + 256 * b1), rest)
  | .u16, _ => .error "ValueError"
  | .optU16, b0 :: b1 :: rest => .ok (some (b0 + 256 * b1), rest)
  | .optU16, data => .ok (none, data)

def t_deserialize : List ZType → List Nat → Except String (List (Option Nat) × List Nat)
  | [], data => .ok ([], data)
  | ty :: rest, data =>
    match deserializeType ty data with
    | .error e => .error e
    | .ok (v, data1) =>
      match t_deserialize rest data1 with
      | .error e => .error e
      | .ok (vs, data2) => .ok (v :: vs, data2)

/-! ## The static translation table `GreenPowerProxy.command`

Each entry is `(display name, dispatch kind, argument schema,
target cluster id or none, target ZCL command id or none, fixed leading
argument values)`, exactly as in the source dict (including the swapped
scene entries 0x16/0x17). -/

structure CommandEntry where
  cname : String
  ctype : String
  schema : List ZType
  clusterId : Option Nat
  zclCommandId : Option Nat
  fixedArgs : List Nat
deriving Repr, DecidableEq

/-- First-match association-list lookup (Python dicts here have distinct
keys, so this agrees with dict lookup). -/
def lookupBy {κ α : Type} [DecidableEq κ] : List (κ × α) → κ → Option α
  | [], _ => none
  | (k, v) :: rest, i => if k = i then some v else lookupBy rest i

/-- In-place association-list update of the value stored at a key. -/
def updateBy {κ α : Type} [DecidableEq κ] : List (κ × α) → κ → α → List (κ × α)
  | [], _, _ => []
  | (k, v) :: rest, i, a => if k = i then (k, a) :: rest else (k, v) :: updateBy rest i a

def commandList : List (Nat × CommandEntry) := [
  (0x00, ⟨"Identify", "CLUSTER_COMMAND", [], none, none, []⟩),
  (0x10, ⟨"Scene 0", "CLUSTER_COMMAND", [], some 0x0005, some 0x0001, [0, 0]⟩),
  (0x11, ⟨"Scene 1", "CLUSTER_COMMAND", [], some 0x0005, some 0x0001, [0, 1]⟩),
  (0x12, ⟨"Scene 2", "CLUSTER_COMMAND", [], some 0x0005, some 0x0001, [0, 2]⟩),
  (0x13, ⟨"Scene 3", "CLUSTER_COMMAND", [], some 0x0005, some 0x0001, [0, 3]⟩),
  (0x14, ⟨"Scene 4", "CLUSTER_COMMAND", [], some 0x0005, some 0x0001, [0, 4]⟩),
  (0x15, ⟨"Scene 5", "CLUSTER_COMMAND", [], some 0x0005, some 0x0001, [0, 5]⟩),
  (0x17, ⟨"Scene 7", "CLUSTER_COMMAND", [], some 0x0005, some 0x0001, [0, 6]⟩),
  (0x16, ⟨"Scene 6", "CLUSTER_COMMAND", [], some 0x0005, some 0x0001, [0, 7]⟩),
  (0x18, ⟨"Scene 8", "CLUSTER_COMMAND", [], some 0x0005, some 0x0001, [0, 8]⟩),
  (0x19, ⟨"Scene 9", "CLUSTER_COMMAND", [], some 0x0005, some 0x0001, [0, 9]⟩),
  (0x1A, ⟨"Scene 10", "CLUSTER_COMMAND", [], some 0x0005, some 0x0001, [0, 10]⟩),
  (0x1B, ⟨"Scene 11", "CLUSTER_COMMAND", [], some 0x0005, some 0x0001, [0, 11]⟩),
  (0x1C, ⟨"Scene 12", "CLUSTER_COMMAND", [], some 0x0005, some 0x0001, [0, 12]⟩),
  (0x1D, ⟨"Scene 13", "CLUSTER_COMMAND", [], some 0x0005, some 0x0001, [0, 13]⟩),
  (0x1E, ⟨"Scene 14", "CLUSTER_COMMAND", [], some 0x0005, some 0x0001, [0, 14]⟩),
  (0x1F, ⟨"Scene 15", "CLUSTER_COMMAND", [], some 0x0005, some 0x0001, [0, 15]⟩),
  (0x20, ⟨"Off", "CLUSTER_COMMAND", [], some 0x0006, some 0x0000, []⟩),
  (0x21, ⟨"On", "CLUSTER_COMMAND", [], some 0x0006, some 0x0001, []⟩),
  (0x22, ⟨"Toggle", "CLUSTER_COMMAND", [], some 0x0006, some 0x0002, []⟩),
  (0x23, ⟨"Release", "CLUSTER_COMMAND", [], none, none, []⟩),
  (0x30, ⟨"Move Up", "CLUSTER_COMMAND", [.u8], some 0x0008, some 0x0001, [1]⟩),
  (0x31, ⟨"Move Down", "CLUSTER_COMMAND", [.u8], some 0x0008, some 0x0000, [0]⟩),
  (0x32, ⟨"Step Up", "CLUSTER_COMMAND", [.u8, .optU16], some 0x0008, some 0x0002, [1]⟩),
  (0x33, ⟨"Step Down", "CLUSTER_COMMAND", [.u8, .optU16], some 0x0008, some 0x0002, [0]⟩),
  (0x34, ⟨"Level Control/Stop", "CLUSTER_COMMAND", [], some 0x0008, some 0x0007, []⟩),
  (0x35, ⟨"Move Up (with On/Off)", "CLUSTER_COMMAND", [.u8], some 0x0008, some 0x0005, [1]⟩),
  (0x36, ⟨"Move Down (with On/Off)", "CLUSTER_COMMAND", [.u8], some 0x0008, some 0x0005, [0]⟩),
  (0x37, ⟨"Step Up (with On/Off)", "CLUSTER_COMMAND", [.u8, .optU16], some 0x0008, some 0x0006, [1]⟩),
  (0x38, ⟨"Step Down (with On/Off)", "CLUSTER_COMMAND", [.u8, .optU16], some 0x0008, some 0x0006, [0]⟩),
  (0x40, ⟨"Move Hue Stop", "CLUSTER_COMMAND", [], some 0x0300, some 0x0047, []⟩),
  (0x41, ⟨"Move Hue Up Color", "CLUSTER_COMMAND", [.u8], some 0x0300, some 0x0001, [1]⟩),
  (0x42, ⟨"Move Hue Down Color", "CLUSTER_COMMAND", [.u8], some 0x0300, some 0x0001, [0]⟩),
  (0x43, ⟨"Step Hue Up Color", "CLUSTER_COMMAND", [.u8, .optU16], some 0x0300, some 0x0002, [1]⟩),
  (0x44, ⟨"Step Hue Down Color", "CLUSTER_COMMAND", [.u8, .optU16], some 0x0300, some 0x0002, [0]⟩),
  (0x46, ⟨"Move Saturation Up", "CLUSTER_COMMAND", [.u8], some 0x0300, some 0x0004, [1]⟩),
  (0x47, ⟨"Move Saturation Down", "CLUSTER_COMMAND", [.u8], some 0x0300, some 0x0004, [0]⟩),
  (0x48, ⟨"Step Saturation Up", "CLUSTER_COMMAND", [.u8], some 0x0300, some 0x0005, [1]⟩),
  (0x49, ⟨"Step Saturation Down", "CLUSTER_COMMAND", [.u8], some 0x0300, some 0x0005, [0]⟩),
  (0x4A, ⟨"Move Color", "CLUSTER_COMMAND", [.u16, .u16], some 0x0300, some 0x0008, []⟩),
  (0x4B, ⟨"Step Color", "CLUSTER_COMMAND", [.u16, .u16, .optU16], some 0x0300, some 0x0009, []⟩),
  (0x45, ⟨"Move Saturation Stop", "CLUSTER_COMMAND", [], some 0x0300, some 0x0047, []⟩),
  (0x50, ⟨"Lock Door", "CLUSTER_COMMAND", [], some 0x0101, some 0x0000, []⟩),
  (0x51, ⟨"Unlock Door", "CLUSTER_COMMAND", [], some 0x0101, some 0x0001, []⟩),
  (0x60, ⟨"Press 1 of 1", "CLUSTER_COMMAND", [], none, none, []⟩),
  (0x61, ⟨"Release 1 of 1", "CLUSTER_COMMAND", [], none, none, []⟩),
  (0x62, ⟨"Press 1 of 2", "CLUSTER_COMMAND", [], none, none, []⟩),
  (0x63, ⟨"Release 1 of 2", "CLUSTER_COMMAND", [], none, none, []⟩),
  (0x64, ⟨"Press 2 of 2", "CLUSTER_COMMAND", [], none, none, []⟩),
  (0x65, ⟨"Release 2 of 2", "CLUSTER_COMMAND", [], none, none, []⟩),
  (0x66, ⟨"Short press 1 of 1", "CLUSTER_COMMAND", [], none, none, []⟩),
  (0x67, ⟨"Short press 1 of 2", "CLUSTER_COMMAND", [], none, none, []⟩),
  (0x68, ⟨"Short press 2 of 2", "CLUSTER_COMMAND", [], none, none, []⟩),
  (0x69, ⟨"Press", "CLUSTER_COMMAND", [.u8], some 0x0005, some 0x0001, [0]⟩),
  (0x6A, ⟨"Release", "CLUSTER_COMMAND", [.u8], none, none, []⟩)]

/-- `GreenPowerProxy.command`: lookup of the one-byte proxy command id. -/
def GreenPowerProxy_command (command_id : Nat) : Option CommandEntry :=
  lookupBy commandList command_id

/-! ## The static device-type table `GreenPowerProxy.device`

The source assigns the dict literal twice; Python keeps the second literal
(whose only difference is `0x07 ↦ "On/Off Switch"`), embedded here.
Each entry is `(label, extra input clusters, extra output clusters)`. -/

def deviceList : List (Nat × (String × List Nat × List Nat)) := [
  (0x00, ("Simple Generic 1-state Switch", [], [0x0006])),
  (0x01, ("Simple Generic 2-state Switch", [], [0x0006])),
  (0x02, ("On/Off Switch", [], [0x0005, 0x0006])),
  (0x03, ("Level Control Switch", [], [0x0008])),
  (0x04, ("Simple Sensor", [], [])),
  (0x05, ("Advanced Generic 1-state Switch", [], [0x0005, 0x0006])),
  (0x06, ("Advanced Generic 2-state Switch", [], [0x0005, 0x0006])),
  (0x07, ("On/Off Switch", [], [0x0005, 0x0006])),
  (0x10, ("Color Dimmer Switch", [], [0x0300])),
  (0x11, ("Light Sensor", [0x0400], [])),
  (0x12, ("Occupancy Sensor", [0x0406], [])),
  (0x20, ("Door Lock Controller", [], [0x0101])),
  (0x30, ("Temperature Sensor", [0x0402], [])),
  (0x31, ("Pressure Sensor", [0x0403], [])),
  (0x32, ("Flow Sensor", [0x0404], [])),
  (0x33, ("Indoor Environment Sensor", [], []))]

def GreenPowerProxy_device (ty : Nat) : Option (String × List Nat × List Nat) :=
  lookupBy deviceList ty

/-! ## Device / application state

Only the attributes actually touched by the embedded code are modelled:
`0x9997` (`joiningAllowUntil`, the commissioning-window expiry, kept on the
coordinator's own Green Power cluster), `0x9998` (`key`, the per-device
16-byte shared secret) and `0x9999` (`counter`, the per-device last-accepted
replay counter).  `_attr_cache` / `_update_attribute` belong to
`zigpy.zcl.Cluster`, outside this module; modelled from the spec: the update
stores the attribute value in the cache. -/

structure GPAttrCache where
  joiningAllowUntil : Option Nat
  key : Option (List Nat)
  counter : Option Nat
deriving Repr, DecidableEq

/-- A Green-Power proxy device as built by `create_device`: endpoint 1
(basic info + translated clusters) and endpoint 242 (the Green Power
cluster whose attribute cache holds the per-device security state). -/
structure ProxyDevice where
  nwk : Nat
  basic_manufacturer : String
  basic_model : String
  ep1_in_clusters : List Nat
  ep1_out_clusters : List Nat
  ep242_in_clusters : List Nat
  gp : GPAttrCache
deriving Repr, DecidableEq

/-- The application-level state read and written by the embedded code:
the device registry (`application.devices`, keyed by the 8-byte EUI64)
and the coordinator's own Green Power attribute cache (`self._attr_cache`),
which hosts the commissioning-window expiry. -/
structure AppState where
  devices : List (List Nat × ProxyDevice)
  coordinatorGP : GPAttrCache
deriving Repr, DecidableEq

/-- The stored replay counter of the device registered at `ieee`
(`none` when the device is absent or its counter attribute is unset). -/
def counterAt (s : AppState) (ieee : List Nat) : Option Nat :=
  match lookupBy s.devices ieee with
  | some dev => dev.gp.counter
  | none => none

/-! ## `GreenPowerProxy.calcul_mic`

The CCM*-style MIC: nonce `src_id ‖ src_id ‖ counter ‖ 0x05`, two CBC-style
AES passes over `B0` and the length-prefixed zero-padded auth data, then a
CTR keystream block xored onto the first four bytes.  The AES block cipher
itself (pycryptodome) is external and passed as the parameter `aes`.
Returns `.ok none` when the device is unknown or has no provisioned key
(the caller then skips MIC verification), `.error` for the exceptions the
Python code can raise (`OverflowError`/`AttributeError` from `to_bytes`,
`ValueError` from `AES.new` on a wrong-sized key or IV). -/
def calcul_mic (aes : List Nat → List Nat → List Nat) (s : AppState)
    (ieee : List Nat) (header : Nat) (counter : Option Nat)
    (payload : List Nat) (payload_length : Nat) : Except String (Option Nat) :=
  match lookupBy s.devices ieee with
  | none => .ok none
  | some dev =>
    match dev.gp.key with
    | none => .ok none
    | some key =>
      let src_id := ieee.take 4
      if header ≥ 65536 then .error "OverflowError" else
      match counter with
      | none => .error "AttributeError"
      | some cval =>
        if cval ≥ 4294967296 then .error "OverflowError" else
        let counterB := natToBytesLE cval 4
        let headerB := natToBytesLE header 2
        let nonce := src_id ++ src_id ++ counterB ++ [0x05]
        let headerFull := headerB ++ src_id ++ counterB
        let a := headerFull ++ payload
        if a.length ≥ 65536 then .error "OverflowError" else
        let La := natToBytesBE a.length 2
        let AddAuthData0 := La ++ a
        let AddAuthData := AddAuthData0 ++ List.replicate (16 - AddAuthData0.length) 0
        let B0a := [0x49] ++ nonce
        let B0 := B0a ++ List.replicate (16 - B0a.length) 0
        let B1 := AddAuthData
        let X0 := List.replicate 16 0
        if key.length ≠ 16 then .error "ValueError" else
        if B0.length ≠ 16 then .error "ValueError" else
        let X1 := aes key (xorBytes B0 X0)
        if B1.length ≠ 16 then .error "ValueError" else
        let X2 := aes key (xorBytes B1 X1)
        let A0 := [0x01] ++ nonce ++ [0x00, 0x00]
        if A0.length ≠ 16 then .error "ValueError" else
        let keystream := aes key A0
        .ok (some (bytesToNatLE (xorBytes (X2.take 4) (keystream.take 4))))

/-! ## `GreenPowerProxy.handle_notification` -/

/-- A redispatched cluster command: the translated invocation handed to the
device's primary endpoint (`dev.endpoints[1]`), as if received natively.
Argument values are `Option Nat` because a `t.Optional` schema slot that ran
out of bytes deserializes to Python `None`. -/
structure Dispatch where
  endpoint : Nat
  clusterId : Nat
  zclCommandId : Nat
  args : List (Option Nat)
deriving Repr, DecidableEq

/-- Result of handling one inbound unit: the state after the call, the
cluster commands redispatched during it, and the exception that escaped the
handler, if any (Python exceptions abort the handler but keep every
mutation already performed). -/
structure HNResult where
  state : AppState
  dispatches : List Dispatch
  error : Option String
deriving Repr, DecidableEq

/-- The MIC comparison gate: drop iff a MIC was computed and differs from
the received one (`calcul_mic is not None and calcul_mic != mic`). -/
def micDrop : Option Nat → Nat → Bool
  | none, _ => false
  | some c, m => c != m

/-- The replay gate: drop iff a counter is stored and is ≥ the frame's
(`0x9999 in attributes and attributes[0x9999] >= counter`). -/
def replayDrop : Option Nat → Nat → Bool
  | none, _ => false
  | some st, c => decide (c ≤ st)

/-- Final stage of `handle_notification`: for an entry with a target
cluster (and the `CLUSTER_COMMAND` kind), add the output cluster to the
device's endpoint 1 on demand and redispatch the translated invocation;
entries with no target produce no redispatch. -/
def hn_dispatch (s : AppState) (ieee : List Nat) (dev : ProxyDevice)
    (entry : CommandEntry) (value : List (Option Nat)) : HNResult :=
  match entry.clusterId with
  | none => ⟨s, [], none⟩
  | some cid =>
    if entry.ctype = "CLUSTER_COMMAND" then
      if cid ∈ dev.ep1_out_clusters then
        ⟨s, [⟨1, cid, entry.zclCommandId.getD 0, value⟩], none⟩
      else
        let dev1 := {dev with ep1_out_clusters := dev.ep1_out_clusters ++ [cid]}
        ⟨{s with devices := updateBy s.devices ieee dev1},
          [⟨1, cid, entry.zclCommandId.getD 0, value⟩], none⟩
    else ⟨s, [], none⟩

/-- Replay-gate stage of `handle_notification`: when the frame carries a
counter, drop stale frames, otherwise store the new counter value before
falling through to the dispatch stage. -/
def hn_afterAuth (s : AppState) (ieee : List Nat) (dev : ProxyDevice)
    (entry : CommandEntry) (counter : Option Nat) (vals : List (Option Nat)) : HNResult :=
  let value := entry.fixedArgs.map Option.some ++ vals
  match counter with
  | none => hn_dispatch s ieee dev entry value
  | some c =>
    if replayDrop dev.gp.counter c then ⟨s, [], none⟩
    else
      let dev1 := {dev with gp := {dev.gp with counter := some c}}
      hn_dispatch {s with devices := updateBy s.devices ieee dev1} ieee dev1 entry value

/-- `GreenPowerProxy.handle_notification`: authenticated ingestion of one
data frame.  Stages in source order: unknown-device drop, unknown-command
drop, MIC computation and comparison, schema deserialization, replay gate
with counter update, translated redispatch. -/
def handle_notification (aes : List Nat → List Nat → List Nat) (s : AppState)
    (ieee : List Nat) (header : Nat) (counter : Option Nat) (command_id : Nat)
    (payload : Nat) (payload_length : Nat) (mic : Nat) : HNResult :=
  match lookupBy s.devices ieee with
  | none => ⟨s, [], none⟩
  | some dev =>
    match GreenPowerProxy_command command_id with
    | none => ⟨s, [], none⟩
    | some entry =>
      if command_id ≥ 256 then ⟨s, [], some "OverflowError"⟩ else
      if payload ≥ 256 ^ payload_length then ⟨s, [], some "OverflowError"⟩ else
      let payloadB := natToBytesLE payload payload_length
      match calcul_mic aes s ieee header counter
          (natToBytesLE command_id 1 ++ payloadB) (payload_length + 1) with
      | .error e => ⟨s, [], some e⟩
      | .ok cm =>
        if micDrop cm mic then ⟨s, [], none⟩
        else
          match t_deserialize entry.schema payloadB with
          | .error e => ⟨s, [], some e⟩
          | .ok (vals, _) => hn_afterAuth s ieee dev entry counter vals

/-! ## `GreenPowerProxy.create_device`, `setKey`, `permit` -/

/-- The commissioning gate of `create_device`:
`not remoteCommissioning and (0x9997 not in self._attr_cache or
self._attr_cache[0x9997] < time.time())`.  `now` stands for `time.time()`. -/
def permitGateFails (s : AppState) (now : Nat) (remoteCommissioning : Bool) : Bool :=
  !remoteCommissioning &&
    (match s.coordinatorGP.joiningAllowUntil with
     | none => true
     | some e => decide (e < now))

/-- `GreenPowerProxy.create_device`: idempotent on known identities; for a
new identity, gated by the override flag / commissioning window; on
success builds the two endpoints (basic info on endpoint 1, labelled from
the device-type table, and the Green Power cluster on endpoint 242),
registers the device and announces it (`application.device_initialized`). -/
def create_device (s : AppState) (now : Nat) (ieee : List Nat)
    (ty : Option Nat) (remoteCommissioning : Bool) : AppState × Option ProxyDevice :=
  match lookupBy s.devices ieee with
  | some dev => (s, some dev)
  | none =>
    if permitGateFails s now remoteCommissioning then (s, none)
    else
      let entry := match ty with
        | some t0 => GreenPowerProxy_device t0
        | none => none
      let dev : ProxyDevice :=
        match entry with
        | some (nm, inCl, outCl) =>
          ⟨32766, "GreenPower", nm, [0x0000] ++ inCl, outCl, [0x0021], ⟨none, none, none⟩⟩
        | none =>
          ⟨32766, "GreenPower", "GreenPowerDevice", [0x0000], [], [0x0021], ⟨none, none, none⟩⟩
      ({s with devices := s.devices ++ [(ieee, dev)]}, some dev)

/-- Argument accepted by `setKey`: Python duck-typing allows raw bytes or
an int (converted with `key.to_bytes(16, "big")`). -/
inductive KeyInput
  | bytes (b : List Nat)
  | int (n : Nat)
deriving Repr, DecidableEq

/-- `GreenPowerProxy.setKey` on one device's Green Power attribute cache.
`setKey(None)` executes `del self._attr_cache[0x9998]`, which raises
`KeyError` when no key is stored (leaving the cache untouched). -/
def setKey (c : GPAttrCache) (key : Option KeyInput) : Except String GPAttrCache :=
  match key with
  | none =>
    match c.key with
    | none => .error "KeyError"
    | some _ => .ok {c with key := none}
  | some (.bytes b) => .ok {c with key := some b}
  | some (.int n) =>
    if n ≥ 256 ^ 16 then .error "OverflowError"
    else .ok {c with key := some (natToBytesBE n 16)}

/-- `GreenPowerProxy.permit`: validates `0 ≤ time_s ≤ 254` (an `assert`,
so failure raises before any mutation), stores the absolute expiry
`int(time.time() + time_s)`, then broadcasts the commissioning announcement.
The network send is external; `broadcastFails` says whether it raises.  A
send failure is returned to the caller but the already-written expiry is
kept. -/
def permit (s : AppState) (now : Nat) (time_s : Int) (broadcastFails : Bool) :
    AppState × Except String Unit :=
  if 0 ≤ time_s ∧ time_s ≤ 254 then
    let s1 := {s with coordinatorGP :=
      {s.coordinatorGP with joiningAllowUntil := some (now + time_s.toNat)}}
    (s1, if broadcastFails then .error "DeliveryError" else .ok ())
  else (s, .error "AssertionError")

/-! ## OTA Upgrade Negotiator

The Image Provider (`application.ota`) is external to this module; it is
modelled from the spec at its interface boundary:
`get_image(vendor_id, image_type) -> ImageDescriptor | none`, and
`extract(offset, length)` fails explicitly if the offset is at or after the
image end, otherwise returns the requested range clamped at the end.  The
eligibility predicate `should_update` belongs to the image descriptor and
is likewise an opaque field. -/

structure OtaImage where
  key_manufacturer_id : Nat
  key_image_type : Nat
  version : Nat
  data : List Nat
  shouldUpdate : Nat → Nat → Nat → Nat → Bool

/-- Modelled from the spec: `ImageDescriptor.extract` /
`img.get_image_block(offset, size)` (zigpy.ota, outside this module)
returns the byte range `[offset, offset + size)` clamped at the image end
and raises `ValueError` when `offset` is at or after the end. -/
def get_image_block (img : OtaImage) (offset size : Nat) : Except String (List Nat) :=
  if offset ≥ img.data.length then .error "ValueError"
  else .ok ((img.data.drop offset).take size)

inductive QNIResp
  | success (manufacturerId imageType version imageSize : Nat)
  | noImage
deriving Repr, DecidableEq

/-- `Ota._handle_query_next_image` (stateless): look up the candidate image,
apply its eligibility predicate, and answer SUCCESS with the image's own
identity/version/size or NO_IMAGE_AVAILABLE. -/
def handle_query_next_image (provider : Nat → Nat → Option OtaImage)
    (field_ctrl manufacturer_id image_type current_file_version hardware_version : Nat) :
    QNIResp :=
  match provider manufacturer_id image_type with
  | some img =>
    if img.shouldUpdate manufacturer_id image_type current_file_version hardware_version then
      .success img.key_manufacturer_id img.key_image_type img.version img.data.length
    else .noImage
  | none => .noImage

inductive IBResp
  | success (manufacturerId imageType version fileOffset : Nat) (data : List Nat)
  | abort
  | malformed
deriving Repr, DecidableEq

/-- `Ota._handle_image_block` (stateless): ABORT when no image matches the
request or its version differs; otherwise the debug line
`100.0 * file_offset / img.header.image_size` divides by the image size
(raising `ZeroDivisionError` on an empty image, which escapes to the
catching task boundary, so no response at all is sent); then the extracted
range is echoed as SUCCESS, with `ValueError` from the extraction answered
by MALFORMED_COMMAND. -/
def handle_image_block (provider : Nat → Nat → Option OtaImage)
    (field_ctr manufacturer_id image_type file_version file_offset max_data_size
     request_node_addr block_request_delay : Nat) : Except String IBResp :=
  match provider manufacturer_id image_type with
  | none => .ok .abort
  | some img =>
    if img.version ≠ file_version then .ok .abort
    else if img.data.length = 0 then .error "ZeroDivisionError"
    else
      match get_image_block img file_offset max_data_size with
      | .ok blockData =>
        .ok (.success img.key_manufacturer_id img.key_image_type img.version
              file_offset blockData)
      | .error _ => .ok .malformed

/-! ## Frame sequences and the replay-counter order -/

/-- One inbound data frame as passed to `handle_notification`. -/
structure GPFrame where
  ieee : List Nat
  header : Nat
  counter : Option Nat
  command_id : Nat
  payload : Nat
  payload_length : Nat
  mic : Nat
deriving Repr, DecidableEq

/-- Handle a list of inbound data frames in arrival order, threading the
application state. -/
def handleFrames (aes : List Nat → List Nat → List Nat) (s : AppState) :
    List GPFrame → AppState
  | [] => s
  | f :: rest =>
    handleFrames aes
      (handle_notification aes s f.ieee f.header f.counter f.command_id
        f.payload f.payload_length f.mic).state rest

/-- Order on stored replay counters: an absent counter precedes anything,
a stored counter may only grow and never disappear. -/
def ctrLE : Option Nat → Option Nat → Bool
  | none, _ => true
  | some _, none => false
  | some a, some b => decide (a ≤ b)

/-! ## Concrete fixtures used to evaluate the development on closed inputs -/

/-- A stand-in for the external AES block cipher (its internals never
matter on the keyless paths exercised below). -/
def aes0 : List Nat → List Nat → List Nat := fun _ b => b

def ieee0 : List Nat := [1, 2, 3, 4, 1, 2, 3, 4]

/-- A registered proxy device with no key and stored counter 10. -/
def dev0 : ProxyDevice :=
  ⟨32766, "GreenPower", "GreenPowerDevice", [0x0000], [], [0x0021], ⟨none, none, some 10⟩⟩

def s0 : AppState := ⟨[(ieee0, dev0)], ⟨none, none, none⟩⟩

/-- A registered proxy device with no key and no stored counter yet. -/
def dev1w : ProxyDevice :=
  ⟨32766, "GreenPower", "GreenPowerDevice", [0x0000], [], [0x0021], ⟨none, none, none⟩⟩

def s1w : AppState := ⟨[(ieee0, dev1w)], ⟨none, none, none⟩⟩

/-- Empty registry with a commissioning-window expiry stored at time 100. -/
def s6 : AppState := ⟨[], ⟨some 100, none, none⟩⟩

/-- Commissioning-window predicate as the code actually gates it: open iff
the current time is at most the stored expiry (the code's gate tests
`expiry < now`, so the boundary instant `now = expiry` is still open). -/
def specWindowOpen (s : AppState) (now : Nat) : Bool :=
  match s.coordinatorGP.joiningAllowUntil with
  | none => false
  | some e => decide (now ≤ e)

/-- An image descriptor with empty contents (total size 0). -/
def zeroImg : OtaImage := ⟨0x1234, 1, 7, [], fun _ _ _ _ => true⟩

def zeroProvider : Nat → Nat → Option OtaImage := fun _ _ => some zeroImg

/-- A 4-byte image, always eligible. -/
def img8 : OtaImage := ⟨0x1234, 1, 7, [10, 20, 30, 40], fun _ _ _ _ => true⟩

def provider8 : Nat → Nat → Option OtaImage :=
  fun m t => if m = 0x1234 ∧ t = 1 then some img8 else none

/-- A provider with one image that is never eligible. -/
def img9 : OtaImage := ⟨0x1234, 1, 7, [10, 20, 30, 40], fun _ _ _ _ => false⟩

def provider9 : Nat → Nat → Option OtaImage :=
  fun m t => if m = 0x1234 ∧ t = 1 then some img9 else none

/-! ## Association-list lemmas -/

theorem lookupBy_updateBy_self {κ α : Type} [DecidableEq κ] (l : List (κ × α)) (i : κ)
    (a x : α) (h : lookupBy l i = some x) : lookupBy (updateBy l i a) i = some a := by
  induction l with
  | nil => simp [lookupBy] at h
  | cons p rest ih =>
    obtain ⟨k, v⟩ := p
    by_cases hk : k = i
    · simp [lookupBy, updateBy, hk]
    · simp only [lookupBy, updateBy, if_neg hk] at h ⊢
      exact ih h

theorem lookupBy_updateBy_ne {κ α : Type} [DecidableEq κ] (l : List (κ × α)) (i j : κ)
    (a : α) (hne : i ≠ j) : lookupBy (updateBy l i a) j = lookupBy l j := by
  induction l with
  | nil => rfl
  | cons p rest ih =>
    obtain ⟨k, v⟩ := p
    by_cases hk : k = i
    · subst hk
      simp [lookupBy, updateBy, hne]
    · simp [lookupBy, updateBy, hk, ih]

theorem lookupBy_mem {κ α : Type} [DecidableEq κ] (l : List (κ × α)) (i : κ) (v : α)
    (h : lookupBy l i = some v) : (i, v) ∈ l := by
  induction l with
  | nil => simp [lookupBy] at h
  | cons p rest ih =>
    obtain ⟨k, w⟩ := p
    by_cases hk : k = i
    · subst hk
      rw [lookupBy, if_pos rfl] at h
      injection h with h
      subst h
      exact List.mem_cons_self _ _
    · simp only [lookupBy, if_neg hk] at h
      exact List.mem_cons_of_mem _ (ih h)

/-- Every entry of the translation table has the `CLUSTER_COMMAND` kind. -/
theorem command_ctype (i : Nat) (e : CommandEntry)
    (h : GreenPowerProxy_command i = some e) : e.ctype = "CLUSTER_COMMAND" := by
  have hm := lookupBy_mem _ _ _ h
  have hall : ∀ p ∈ commandList, p.2.ctype = "CLUSTER_COMMAND" := by decide
  exact hall _ hm

/-! ## Counter-order lemmas -/

theorem ctrLE_refl (a : Option Nat) : ctrLE a a = true := by
  cases a <;> simp [ctrLE]

theorem ctrLE_trans {a b c : Option Nat} (h1 : ctrLE a b = true) (h2 : ctrLE b c = true) :
    ctrLE a c = true := by
  cases a <;> cases b <;> cases c <;> simp_all [ctrLE] <;> omega

/-! ## MIC lemmas -/

/-- A known device without a provisioned key yields no MIC: verification is
skipped. -/
theorem calcul_mic_no_key (aes : List Nat → List Nat → List Nat) (s : AppState)
    (ieee : List Nat) (dev : ProxyDevice) (header : Nat) (counter : Option Nat)
    (payload : List Nat) (payload_length : Nat)
    (hdev : lookupBy s.devices ieee = some dev) (hkey : dev.gp.key = none) :
    calcul_mic aes s ieee header counter payload payload_length = .ok none := by
  simp only [calcul_mic, hdev, hkey]

/-- The MIC depends on the state only through the device's stored key. -/
theorem calcul_mic_congr_key (aes : List Nat → List Nat → List Nat) {s s1 : AppState}
    {ieee : List Nat} {dev dev1 : ProxyDevice} (header : Nat) (counter : Option Nat)
    (payload : List Nat) (payload_length : Nat)
    (h : lookupBy s.devices ieee = some dev) (h1 : lookupBy s1.devices ieee = some dev1)
    (hk : dev1.gp.key = dev.gp.key) :
    calcul_mic aes s1 ieee header counter payload payload_length
      = calcul_mic aes s ieee header counter payload payload_length := by
  simp only [calcul_mic, h, h1, hk]

/-! ## Dispatch-stage lemmas -/

theorem hn_dispatch_error (s : AppState) (ieee : List Nat) (dev : ProxyDevice)
    (entry : CommandEntry) (value : List (Option Nat)) :
    (hn_dispatch s ieee dev entry value).error = none := by
  unfold hn_dispatch
  split
  · rfl
  · split
    · split <;> rfl
    · rfl

theorem hn_dispatch_lookup (s : AppState) (ieee : List Nat) (dev : ProxyDevice)
    (entry : CommandEntry) (value : List (Option Nat))
    (hd : lookupBy s.devices ieee = some dev) :
    ∃ devF, lookupBy (hn_dispatch s ieee dev entry value).state.devices ieee = some devF
      ∧ devF.gp = dev.gp := by
  unfold hn_dispatch
  split
  · exact ⟨dev, hd, rfl⟩
  · split
    · split
      · exact ⟨dev, hd, rfl⟩
      · exact ⟨_, lookupBy_updateBy_self _ _ _ _ hd, rfl⟩
    · exact ⟨dev, hd, rfl⟩

theorem counterAt_update_self (s : AppState) (ieee : List Nat) (dev dev1 : ProxyDevice)
    (hdev : lookupBy s.devices ieee = some dev) :
    counterAt {s with devices := updateBy s.devices ieee dev1} ieee = dev1.gp.counter := by
  unfold counterAt
  simp only [lookupBy_updateBy_self _ _ dev1 _ hdev]

theorem counterAt_update_ne (s : AppState) (i j : List Nat) (dev1 : ProxyDevice)
    (hne : i ≠ j) :
    counterAt {s with devices := updateBy s.devices i dev1} j = counterAt s j := by
  unfold counterAt
  simp only [lookupBy_updateBy_ne _ _ _ dev1 hne]

theorem counterAt_eq (s : AppState) (ieee : List Nat) (dev : ProxyDevice)
    (hdev : lookupBy s.devices ieee = some dev) : counterAt s ieee = dev.gp.counter := by
  unfold counterAt
  simp only [hdev]

theorem hn_dispatch_counterAt (s : AppState) (ieee : List Nat) (dev : ProxyDevice)
    (entry : CommandEntry) (value : List (Option Nat)) (j : List Nat)
    (hd : lookupBy s.devices ieee = some dev) :
    counterAt (hn_dispatch s ieee dev entry value).state j = counterAt s j := by
  unfold hn_dispatch
  split
  · rfl
  · split
    · split
      · rfl
      · by_cases hj : ieee = j
        · subst hj
          rw [counterAt_update_self s ieee dev _ hd, counterAt_eq s ieee dev hd]
        · exact counterAt_update_ne s ieee j _ hj
    · rfl

theorem hn_dispatch_dispatches_none (s : AppState) (ieee : List Nat) (dev : ProxyDevice)
    (entry : CommandEntry) (value : List (Option Nat)) (h : entry.clusterId = none) :
    (hn_dispatch s ieee dev entry value).dispatches = [] := by
  simp only [hn_dispatch, h]

theorem hn_dispatch_dispatches_some (s : AppState) (ieee : List Nat) (dev : ProxyDevice)
    (entry : CommandEntry) (value : List (Option Nat)) (cid : Nat)
    (h : entry.clusterId = some cid) (hty : entry.ctype = "CLUSTER_COMMAND") :
    (hn_dispatch s ieee dev entry value).dispatches
      = [⟨1, cid, entry.zclCommandId.getD 0, value⟩] := by
  simp only [hn_dispatch, h]
  rw [if_pos hty]
  split <;> rfl

/-! ## Replay-stage lemmas -/

theorem hn_afterAuth_drop (s : AppState) (ieee : List Nat) (dev : ProxyDevice)
    (entry : CommandEntry) (c : Nat) (vals : List (Option Nat))
    (h : replayDrop dev.gp.counter c = true) :
    hn_afterAuth s ieee dev entry (some c) vals = ⟨s, [], none⟩ := by
  simp [hn_afterAuth, h]

theorem hn_afterAuth_accept (s : AppState) (ieee : List Nat) (dev : ProxyDevice)
    (entry : CommandEntry) (c : Nat) (vals : List (Option Nat))
    (h : replayDrop dev.gp.counter c = false) :
    hn_afterAuth s ieee dev entry (some c) vals
      = hn_dispatch {s with devices := updateBy s.devices ieee {dev with gp := {dev.gp with counter := some c}}} ieee {dev with gp := {dev.gp with counter := some c}} entry (entry.fixedArgs.map Option.some ++ vals) := by
  simp [hn_afterAuth, h]

/-- Acceptance path of `handle_notification`: known device, recognized
command, MIC gate passed, payload deserialized, replay gate passed — the
counter is stored first and the dispatch stage runs on the updated state. -/
theorem hn_accept (aes : List Nat → List Nat → List Nat) {s : AppState} {ieee : List Nat}
    {dev : ProxyDevice} {header c command_id payload payload_length mic : Nat}
    {entry : CommandEntry} {cm : Option Nat} {vals : List (Option Nat)} {rest : List Nat}
    (hdev : lookupBy s.devices ieee = some dev)
    (hcmd : GreenPowerProxy_command command_id = some entry)
    (h8 : command_id < 256)
    (hp : payload < 256 ^ payload_length)
    (hcm : calcul_mic aes s ieee header (some c)
        (natToBytesLE command_id 1 ++ natToBytesLE payload payload_length)
        (payload_length + 1) = .ok cm)
    (hmic : micDrop cm mic = false)
    (hdes : t_deserialize entry.schema (natToBytesLE payload payload_length)
        = .ok (vals, rest))
    (hrep : replayDrop dev.gp.counter c = false) :
    handle_notification aes s ieee header (some c) command_id payload payload_length mic
      = hn_dispatch {s with devices := updateBy s.devices ieee {dev with gp := {dev.gp with counter := some c}}} ieee {dev with gp := {dev.gp with counter := some c}} entry (entry.fixedArgs.map Option.some ++ vals) := by
  have h8n : ¬ (command_id ≥ 256) := by omega
  have hpn : ¬ (payload ≥ 256 ^ payload_length) := by omega
  simp only [handle_notification, hdev, hcmd, if_neg h8n, if_neg hpn, hcm, hmic,
    Bool.false_eq_true, if_false, hdes]
  exact hn_afterAuth_accept s ieee dev entry c vals hrep

/-- Drop path of `handle_notification` under a stale counter: whatever the
MIC or deserialization outcome, the state is unchanged and nothing is
dispatched. -/
theorem hn_drop_stale (aes : List Nat → List Nat → List Nat) (s : AppState)
    (ieee : List Nat) (header c command_id payload payload_length mic : Nat)
    (dev : ProxyDevice) (C : Nat)
    (hdev : lookupBy s.devices ieee = some dev)
    (hC : dev.gp.counter = some C) (hle : c ≤ C) :
    (handle_notification aes s ieee header (some c) command_id payload payload_length mic).state = s
    ∧ (handle_notification aes s ieee header (some c) command_id payload payload_length mic).dispatches = [] := by
  have hrep : replayDrop dev.gp.counter c = true := by
    rw [hC]
    simp only [replayDrop, decide_eq_true_eq]
    exact hle
  simp only [handle_notification, hdev]
  split
  · exact ⟨rfl, rfl⟩
  · split
    · exact ⟨rfl, rfl⟩
    · split
      · exact ⟨rfl, rfl⟩
      · split
        · exact ⟨rfl, rfl⟩
        · split
          · exact ⟨rfl, rfl⟩
          · split
            · exact ⟨rfl, rfl⟩
            · rw [hn_afterAuth_drop s ieee dev _ c _ hrep]
              exact ⟨rfl, rfl⟩

/-- The replay stage never lowers any device's stored counter. -/
theorem hn_afterAuth_counterAt_mono (s : AppState) (ieee : List Nat) (dev : ProxyDevice)
    (entry : CommandEntry) (counter : Option Nat) (vals : List (Option Nat)) (j : List Nat)
    (hdev : lookupBy s.devices ieee = some dev) :
    ctrLE (counterAt s j)
      (counterAt (hn_afterAuth s ieee dev entry counter vals).state j) = true := by
  unfold hn_afterAuth
  split
  · rw [hn_dispatch_counterAt s ieee dev _ _ j hdev]
    exact ctrLE_refl _
  next c =>
    split
    · exact ctrLE_refl _
    next hrep =>
      rw [hn_dispatch_counterAt _ ieee _ _ _ j (lookupBy_updateBy_self _ _ _ _ hdev)]
      by_cases hj : ieee = j
      · subst hj
        rw [counterAt_update_self s ieee dev _ hdev, counterAt_eq s ieee dev hdev]
        rw [Bool.not_eq_true] at hrep
        cases hctr : dev.gp.counter with
        | none => simp [ctrLE]
        | some st =>
          rw [hctr] at hrep
          simp only [replayDrop, decide_eq_false_iff_not] at hrep
          simp only [ctrLE, decide_eq_true_eq]
          omega
      · rw [counterAt_update_ne s ieee j _ hj]
        exact ctrLE_refl _

/-- One `handle_notification` call never lowers any device's stored
replay counter. -/
theorem hn_counterAt_mono (aes : List Nat → List Nat → List Nat) (s : AppState)
    (ieee : List Nat) (header : Nat) (counter : Option Nat)
    (command_id payload payload_length mic : Nat) (j : List Nat) :
    ctrLE (counterAt s j)
      (counterAt (handle_notification aes s ieee header counter command_id payload
          payload_length mic).state j) = true := by
  simp only [handle_notification]
  split
  · exact ctrLE_refl _
  next dev hdev =>
    split
    · exact ctrLE_refl _
    · split
      · exact ctrLE_refl _
      · split
        · exact ctrLE_refl _
        · split
          · exact ctrLE_refl _
          · split
            · exact ctrLE_refl _
            · split
              · exact ctrLE_refl _
              · exact hn_afterAuth_counterAt_mono s ieee dev _ counter _ j hdev

/-- Along any sequence of handled frames the stored replay counters never
decrease. -/
theorem handleFrames_counterAt_mono (aes : List Nat → List Nat → List Nat)
    (fs : List GPFrame) : ∀ (s : AppState) (j : List Nat),
    ctrLE (counterAt s j) (counterAt (handleFrames aes s fs) j) = true := by
  induction fs with
  | nil => intro s j; exact ctrLE_refl _
  | cons f rest ih =>
    intro s j
    exact ctrLE_trans (hn_counterAt_mono aes s f.ieee f.header f.counter f.command_id
      f.payload f.payload_length f.mic j) (ih _ j)

/-- Every key of the translation table is a single byte. -/
theorem command_key_lt (i : Nat) (e : CommandEntry)
    (h : GreenPowerProxy_command i = some e) : i < 256 := by
  have hm := lookupBy_mem _ _ _ h
  have hall : ∀ p ∈ commandList, p.1 < 256 := by decide
  exact hall _ hm

/-! ## Claims -/

/-- C1: For every inbound data frame addressed to a known proxy device,
with a recognized command id and passing MIC verification, whose counter is
strictly greater than the stored last-accepted counter (or with no counter
stored yet), the stored counter is updated to the frame's counter value and
only then is the translated command dispatched to the device's primary
endpoint; re-delivering the very same frame afterwards changes nothing and
dispatches nothing, so a duplicated delivery is never translated twice. -/
theorem C1_counter_updated_before_translation
    (aes : List Nat → List Nat → List Nat) (s : AppState) (ieee : List Nat)
    (dev : ProxyDevice) (header c command_id payload payload_length mic : Nat)
    (entry : CommandEntry) (cm : Option Nat) (vals : List (Option Nat)) (rest : List Nat)
    (hdev : lookupBy s.devices ieee = some dev)
    (hcmd : GreenPowerProxy_command command_id = some entry)
    (hp : payload < 256 ^ payload_length)
    (hcm : calcul_mic aes s ieee header (some c)
        (natToBytesLE command_id 1 ++ natToBytesLE payload payload_length)
        (payload_length + 1) = .ok cm)
    (hmic : micDrop cm mic = false)
    (hdes : t_deserialize entry.schema (natToBytesLE payload payload_length)
        = .ok (vals, rest))
    (hrep : replayDrop dev.gp.counter c = false) :
    counterAt (handle_notification aes s ieee header (some c) command_id payload
        payload_length mic).state ieee = some c
    ∧ (∀ cid, entry.clusterId = some cid →
        (handle_notification aes s ieee header (some c) command_id payload
            payload_length mic).dispatches
          = [⟨1, cid, entry.zclCommandId.getD 0, entry.fixedArgs.map Option.some ++ vals⟩])
    ∧ handle_notification aes
        (handle_notification aes s ieee header (some c) command_id payload
            payload_length mic).state
        ieee header (some c) command_id payload payload_length mic
      = ⟨(handle_notification aes s ieee header (some c) command_id payload
            payload_length mic).state, [], none⟩ := by
  have h8 := command_key_lt _ _ hcmd
  have hacc := hn_accept aes hdev hcmd h8 hp hcm hmic hdes hrep
  have hlook1 : lookupBy ({s with devices := updateBy s.devices ieee {dev with gp := {dev.gp with counter := some c}}} : AppState).devices ieee = some {dev with gp := {dev.gp with counter := some c}} :=
    lookupBy_updateBy_self _ _ _ _ hdev
  refine ⟨?_, ?_, ?_⟩
  · rw [hacc, hn_dispatch_counterAt _ ieee _ _ _ ieee hlook1, counterAt_eq _ ieee _ hlook1]
  · intro cid hcid
    rw [hacc]
    exact hn_dispatch_dispatches_some _ ieee _ entry _ cid hcid (command_ctype _ _ hcmd)
  · rw [hacc]
    obtain ⟨devF, hF, hgp⟩ := hn_dispatch_lookup _ ieee _ entry _ hlook1
    have hcm2 : calcul_mic aes
        (hn_dispatch {s with devices := updateBy s.devices ieee {dev with gp := {dev.gp with counter := some c}}} ieee {dev with gp := {dev.gp with counter := some c}} entry (entry.fixedArgs.map Option.some ++ vals)).state
        ieee header (some c)
        (natToBytesLE command_id 1 ++ natToBytesLE payload payload_length)
        (payload_length + 1) = .ok cm := by
      rw [calcul_mic_congr_key aes header (some c) _ _ hdev hF (by rw [hgp])]
      exact hcm
    have hrep2 : replayDrop devF.gp.counter c = true := by
      rw [hgp]
      simp [replayDrop]
    have h8n : ¬ (command_id ≥ 256) := by omega
    have hpn : ¬ (payload ≥ 256 ^ payload_length) := by omega
    simp only [handle_notification, hF, hcmd, if_neg h8n, if_neg hpn, hcm2, hmic,
      Bool.false_eq_true, if_false, hdes]
    rw [hn_afterAuth_drop _ ieee devF _ c _ hrep2]

/-- Witness for C1: command 0x21 ("On" → cluster 0x0006, command 0x0001)
on a keyless device with stored counter 10 and frame counter 11. -/
theorem C1_witness :
    counterAt (handle_notification aes0 s0 ieee0 0 (some 11) 0x21 0 0 0).state ieee0
      = some 11
    ∧ (handle_notification aes0 s0 ieee0 0 (some 11) 0x21 0 0 0).dispatches
      = [⟨1, 0x0006, 0x0001, []⟩]
    ∧ handle_notification aes0
        (handle_notification aes0 s0 ieee0 0 (some 11) 0x21 0 0 0).state
        ieee0 0 (some 11) 0x21 0 0 0
      = ⟨(handle_notification aes0 s0 ieee0 0 (some 11) 0x21 0 0 0).state, [], none⟩ := by
  have h := C1_counter_updated_before_translation aes0 s0 ieee0 dev0 0 11 0x21 0 0 0
    ⟨"On", "CLUSTER_COMMAND", [], some 0x0006, some 0x0001, []⟩ none [] []
    (by decide) (by decide) (by decide) rfl (by decide) rfl (by decide)
  exact ⟨h.1, h.2.1 0x0006 rfl, h.2.2⟩

/-- C3: For every inbound data frame addressed to a known proxy device
with no provisioned key, MIC verification is skipped entirely: the computed
MIC is `none`, the handling result does not depend on the received MIC
value at all, and (for a recognized command with a deserializable payload)
processing proceeds directly to the replay-counter stage and translation. -/
theorem C3_missing_key_bypasses_authentication
    (aes : List Nat → List Nat → List Nat) (s : AppState) (ieee : List Nat)
    (dev : ProxyDevice) (header : Nat) (counter : Option Nat)
    (command_id payload payload_length : Nat) (entry : CommandEntry)
    (hdev : lookupBy s.devices ieee = some dev)
    (hkey : dev.gp.key = none)
    (hcmd : GreenPowerProxy_command command_id = some entry)
    (hp : payload < 256 ^ payload_length) :
    calcul_mic aes s ieee header counter
        (natToBytesLE command_id 1 ++ natToBytesLE payload payload_length)
        (payload_length + 1) = .ok none
    ∧ (∀ m1 m2, handle_notification aes s ieee header counter command_id payload
          payload_length m1
        = handle_notification aes s ieee header counter command_id payload
          payload_length m2)
    ∧ (∀ mic vals rest,
        t_deserialize entry.schema (natToBytesLE payload payload_length)
          = .ok (vals, rest) →
        handle_notification aes s ieee header counter command_id payload
            payload_length mic
          = hn_afterAuth s ieee dev entry counter vals) := by
  have h8 := command_key_lt _ _ hcmd
  have h8n : ¬ (command_id ≥ 256) := by omega
  have hpn : ¬ (payload ≥ 256 ^ payload_length) := by omega
  have hcm := calcul_mic_no_key aes s ieee dev header counter
    (natToBytesLE command_id 1 ++ natToBytesLE payload payload_length)
    (payload_length + 1) hdev hkey
  refine ⟨hcm, ?_, ?_⟩
  · intro m1 m2
    simp only [handle_notification, hdev, hcmd, if_neg h8n, if_neg hpn, hcm, micDrop,
      Bool.false_eq_true, if_false]
  · intro mic vals rest hdes
    simp only [handle_notification, hdev, hcmd, if_neg h8n, if_neg hpn, hcm, micDrop,
      Bool.false_eq_true, if_false, hdes]

/-- Witness for C3: a keyless device, command 0x20 ("Off"); two different
received MIC values lead to the identical result, and handling reaches the
replay/translation stage. -/
theorem C3_witness :
    calcul_mic aes0 s1w ieee0 0 (some 5)
        (natToBytesLE 0x20 1 ++ natToBytesLE 0 0) 1 = .ok none
    ∧ handle_notification aes0 s1w ieee0 0 (some 5) 0x20 0 0 0
      = handle_notification aes0 s1w ieee0 0 (some 5) 0x20 0 0 999
    ∧ handle_notification aes0 s1w ieee0 0 (some 5) 0x20 0 0 7
      = hn_afterAuth s1w ieee0 dev1w
          ⟨"Off", "CLUSTER_COMMAND", [], some 0x0006, some 0x0000, []⟩ (some 5) [] := by
  have h := C3_missing_key_bypasses_authentication aes0 s1w ieee0 dev1w 0 (some 5) 0x20 0 0
    ⟨"Off", "CLUSTER_COMMAND", [], some 0x0006, some 0x0000, []⟩
    (by decide) (by decide) (by decide) (by decide)
  exact ⟨h.1, h.2.1 0 999, h.2.2 7 [] [] rfl⟩

/-- C4: Replay protection.  (i) A frame whose counter is at most the stored
last-accepted counter is dropped with no state change (stored counter,
clusters, registry all untouched) and no dispatch.  (ii) When no counter is
stored yet, the replay check accepts unconditionally and a frame passing
the other gates initializes the stored counter to the frame's value.
(iii) Across any sequence of handled frames the stored replay counter of
every device never decreases. -/
theorem C4_replay_counter_invariant (aes : List Nat → List Nat → List Nat) :
    (∀ (s : AppState) (ieee : List Nat) (dev : ProxyDevice) (C : Nat)
        (header c command_id payload payload_length mic : Nat),
      lookupBy s.devices ieee = some dev → dev.gp.counter = some C → c ≤ C →
      (handle_notification aes s ieee header (some c) command_id payload
          payload_length mic).state = s
      ∧ (handle_notification aes s ieee header (some c) command_id payload
          payload_length mic).dispatches = [])
    ∧ (∀ (s : AppState) (ieee : List Nat) (dev : ProxyDevice)
        (header c command_id payload payload_length mic : Nat)
        (entry : CommandEntry) (cm : Option Nat) (vals : List (Option Nat)) (rest : List Nat),
      lookupBy s.devices ieee = some dev → dev.gp.counter = none →
      GreenPowerProxy_command command_id = some entry →
      payload < 256 ^ payload_length →
      calcul_mic aes s ieee header (some c)
        (natToBytesLE command_id 1 ++ natToBytesLE payload payload_length)
        (payload_length + 1) = .ok cm →
      micDrop cm mic = false →
      t_deserialize entry.schema (natToBytesLE payload payload_length) = .ok (vals, rest) →
      counterAt (handle_notification aes s ieee header (some c) command_id payload
          payload_length mic).state ieee = some c)
    ∧ (∀ (s : AppState) (fs : List GPFrame) (j : List Nat),
      ctrLE (counterAt s j) (counterAt (handleFrames aes s fs) j) = true) := by
  refine ⟨?_, ?_, ?_⟩
  · intro s ieee dev C header c command_id payload payload_length mic hdev hC hle
    exact hn_drop_stale aes s ieee header c command_id payload payload_length mic dev C
      hdev hC hle
  · intro s ieee dev header c command_id payload payload_length mic entry cm vals rest
      hdev hC hcmd hp hcm hmic hdes
    have hrep : replayDrop dev.gp.counter c = false := by rw [hC]; rfl
    have hacc := hn_accept aes hdev hcmd (command_key_lt _ _ hcmd) hp hcm hmic hdes hrep
    have hlook1 : lookupBy ({s with devices := updateBy s.devices ieee {dev with gp := {dev.gp with counter := some c}}} : AppState).devices ieee = some {dev with gp := {dev.gp with counter := some c}} :=
      lookupBy_updateBy_self _ _ _ _ hdev
    rw [hacc, hn_dispatch_counterAt _ ieee _ _ _ ieee hlook1, counterAt_eq _ ieee _ hlook1]
  · intro s fs j
    exact handleFrames_counterAt_mono aes fs s j

/-- Witness for C4: a stale frame (counter 10 against stored 10) changes
nothing; a first frame on a counterless device initializes the counter;
a singleton frame sequence never lowers the stored counter. -/
theorem C4_witness :
    ((handle_notification aes0 s0 ieee0 0 (some 10) 0x21 0 0 0).state = s0
      ∧ (handle_notification aes0 s0 ieee0 0 (some 10) 0x21 0 0 0).dispatches = [])
    ∧ counterAt (handle_notification aes0 s1w ieee0 0 (some 5) 0x20 0 0 0).state ieee0
        = some 5
    ∧ ctrLE (counterAt s0 ieee0)
        (counterAt (handleFrames aes0 s0 [⟨ieee0, 0, some 12, 0x21, 0, 0, 0⟩]) ieee0)
        = true := by
  have h := C4_replay_counter_invariant aes0
  exact ⟨h.1 s0 ieee0 dev0 10 0 10 0x21 0 0 0 (by decide) (by decide) (by decide),
    h.2.1 s1w ieee0 dev1w 0 5 0x20 0 0 0
      ⟨"Off", "CLUSTER_COMMAND", [], some 0x0006, some 0x0000, []⟩ none [] []
      (by decide) (by decide) (by decide) (by decide) rfl (by decide) rfl,
    h.2.2 s0 [⟨ieee0, 0, some 12, 0x21, 0, 0, 0⟩] ieee0⟩

/-- C2 counterexample: contrary to the specified no-op, `setKey(None)` on a device
with no provisioned key is not a no-op — `del self._attr_cache[0x9998]`
raises `KeyError`. -/
theorem C2_counterexample :
    setKey ⟨none, none, none⟩ none = .error "KeyError" := rfl

/-- C2 (amended): `setKey(None)` with no key provisioned fails with
`KeyError` (leaving the security state untouched, since the exception is
raised before any mutation); `setKey` with a 16-byte key stores that key;
`setKey(None)` with a key present removes it. -/
theorem C2_setKey_amended (c : GPAttrCache) :
    (c.key = none → setKey c none = .error "KeyError")
    ∧ (∀ k, setKey c (some (.bytes k)) = .ok {c with key := some k})
    ∧ (∀ k0, c.key = some k0 → setKey c none = .ok {c with key := none}) := by
  refine ⟨?_, ?_, ?_⟩
  · intro h
    simp [setKey, h]
  · intro k
    rfl
  · intro k0 h
    simp [setKey, h]

/-- Witness for C2 (amended): clearing with no key fails; storing a
16-byte key and then clearing it succeeds. -/
theorem C2_witness :
    setKey ⟨none, none, none⟩ (some (.bytes (List.replicate 16 0xAA)))
      = .ok ⟨none, some (List.replicate 16 0xAA), none⟩
    ∧ setKey ⟨none, some (List.replicate 16 0xAA), none⟩ none = .ok ⟨none, none, none⟩ := by
  have h1 := C2_setKey_amended ⟨none, none, none⟩
  have h2 := C2_setKey_amended ⟨none, some (List.replicate 16 0xAA), none⟩
  exact ⟨h1.2.1 (List.replicate 16 0xAA), h2.2.2 (List.replicate 16 0xAA) rfl⟩

/-- C6 counterexample: with the stored expiry equal to the current time the
specified strict window ("open iff now < expiry") is closed and no override is set,
yet `create_device` still creates the device — the code's gate is
`expiry < now`, so the boundary instant is treated as open. -/
theorem C6_counterexample :
    ((create_device s6 100 ieee0 none false).2).isSome = true
    ∧ ¬ (100 < 100) := by
  exact ⟨by decide, by omega⟩

/-- C6 (amended): a commissioning frame for an unknown identity creates a
device iff the override flag is set or the commissioning window is open in
the sense `now ≤ expiry` (the boundary instant counts as open); otherwise
the frame is dropped with no registry change. -/
theorem C6_commissioning_gate_amended (s : AppState) (now : Nat) (ieee : List Nat)
    (ty : Option Nat) (remote : Bool)
    (hnew : lookupBy s.devices ieee = none) :
    (remote = false → specWindowOpen s now = false →
      create_device s now ieee ty remote = (s, none))
    ∧ (remote = true ∨ specWindowOpen s now = true →
      ∃ dev, create_device s now ieee ty remote
        = ({s with devices := s.devices ++ [(ieee, dev)]}, some dev)) := by
  constructor
  · intro hr hw
    subst hr
    have hg : permitGateFails s now false = true := by
      simp only [permitGateFails, Bool.not_false, Bool.true_and]
      cases he : s.coordinatorGP.joiningAllowUntil with
      | none => rfl
      | some e =>
        simp only [specWindowOpen, he, decide_eq_false_iff_not, Nat.not_le] at hw
        simp only [decide_eq_true_eq]
        omega
    simp only [create_device, hnew, hg, if_true]
  · intro hor
    have hg : permitGateFails s now remote = false := by
      cases hor with
      | inl hr =>
        subst hr
        rfl
      | inr hw =>
        simp only [permitGateFails]
        cases he : s.coordinatorGP.joiningAllowUntil with
        | none => simp [specWindowOpen, he] at hw
        | some e =>
          simp only [specWindowOpen, he, decide_eq_true_eq] at hw
          simp only [Bool.and_eq_false_iff, decide_eq_false_iff_not, Nat.not_lt]
          right
          omega
    simp only [create_device, hnew, hg, Bool.false_eq_true, if_false]
    exact ⟨_, rfl⟩

/-- Witness for C6 (amended): with expiry 100 and now 101 the window is
closed and the frame is dropped; the override path still creates the
device. -/
theorem C6_witness :
    create_device s6 101 ieee0 none false = (s6, none)
    ∧ ∃ dev, create_device s6 101 ieee0 none true
        = ({s6 with devices := s6.devices ++ [(ieee0, dev)]}, some dev) := by
  have h1 := C6_commissioning_gate_amended s6 101 ieee0 none false rfl
  have h2 := C6_commissioning_gate_amended s6 101 ieee0 none true rfl
  exact ⟨h1.1 rfl (by decide), h2.2 (Or.inl rfl)⟩

/-- C7: For an identity already present in the device registry,
`create_device` is idempotent — it returns the existing device and changes
nothing, regardless of the commissioning window or the override flag. -/
theorem C7_create_device_idempotent (s : AppState) (now : Nat) (ieee : List Nat)
    (ty : Option Nat) (remote : Bool) (dev : ProxyDevice)
    (hdev : lookupBy s.devices ieee = some dev) :
    create_device s now ieee ty remote = (s, some dev) := by
  simp only [create_device, hdev]

/-- Witness for C7: re-commissioning the registered device is a no-op in
every combination of window state and override flag. -/
theorem C7_witness :
    create_device s0 0 ieee0 none false = (s0, some dev0)
    ∧ create_device s0 0 ieee0 (some 2) true = (s0, some dev0) := by
  exact ⟨C7_create_device_idempotent s0 0 ieee0 none false dev0 (by decide),
    C7_create_device_idempotent s0 0 ieee0 (some 2) true dev0 (by decide)⟩

/-- C8 counterexample: for a matching image of total size zero the request
offset 0 is at/after the image end, so the specification demands MALFORMED_COMMAND,
but the handler's progress computation divides by the image size and raises
`ZeroDivisionError` before reaching the extraction, so no response is sent
at all. -/
theorem C8_counterexample :
    handle_image_block zeroProvider 0 0x1234 1 7 0 64 0 0 = .error "ZeroDivisionError"
    ∧ handle_image_block zeroProvider 0 0x1234 1 7 0 64 0 0 ≠ .ok .malformed := by
  refine ⟨rfl, ?_⟩
  intro h
  rw [show handle_image_block zeroProvider 0 0x1234 1 7 0 64 0 0
      = .error "ZeroDivisionError" from rfl] at h
  exact Except.noConfusion h

/-- C8 (amended): `image_block` answers ABORT when no image matches the
(vendor, type) key or its version differs from the requested one; when the
image matches but has total size zero, the handler fails internally
(division by the image size) and no response is sent; for a nonzero-size
match, an offset at or after the image end answers MALFORMED_COMMAND and an
in-range offset answers SUCCESS with the extracted bytes and the echoed
offset and version. -/
theorem C8_image_block_amended (provider : Nat → Nat → Option OtaImage)
    (fc mid ity fv off maxsz rna brd : Nat) :
    ((provider mid ity = none
        ∨ ∃ img, provider mid ity = some img ∧ img.version ≠ fv) →
      handle_image_block provider fc mid ity fv off maxsz rna brd = .ok .abort)
    ∧ (∀ img, provider mid ity = some img → img.version = fv →
      (img.data.length = 0 →
        handle_image_block provider fc mid ity fv off maxsz rna brd
          = .error "ZeroDivisionError")
      ∧ (0 < img.data.length → img.data.length ≤ off →
        handle_image_block provider fc mid ity fv off maxsz rna brd = .ok .malformed)
      ∧ (off < img.data.length →
        handle_image_block provider fc mid ity fv off maxsz rna brd
          = .ok (.success img.key_manufacturer_id img.key_image_type img.version off
              ((img.data.drop off).take maxsz)))) := by
  constructor
  · intro h
    cases h with
    | inl hn => simp [handle_image_block, hn]
    | inr he =>
      obtain ⟨img, hi, hv⟩ := he
      simp [handle_image_block, hi, hv]
  · intro img hi hv
    refine ⟨?_, ?_, ?_⟩
    · intro hz
      simp [handle_image_block, hi, hv, hz]
    · intro hpos hrange
      have hge : off ≥ img.data.length := hrange
      have hnz : img.data.length ≠ 0 := by omega
      simp [handle_image_block, hi, hv, hnz, get_image_block, hge]
    · intro hlt
      have hnz : img.data.length ≠ 0 := by omega
      have hnge : ¬ (off ≥ img.data.length) := by omega
      simp [handle_image_block, hi, hv, hnz, get_image_block, hnge]

/-- Witness for C8 (amended): version mismatch aborts; zero-size image
raises; offset at the end of a 4-byte image is malformed; an in-range
offset succeeds with the extracted bytes. -/
theorem C8_witness :
    handle_image_block provider8 0 0x1234 1 6 0 64 0 0 = .ok .abort
    ∧ handle_image_block zeroProvider 1 0x1234 1 7 3 64 0 0 = .error "ZeroDivisionError"
    ∧ handle_image_block provider8 0 0x1234 1 7 4 64 0 0 = .ok .malformed
    ∧ handle_image_block provider8 0 0x1234 1 7 1 2 0 0
        = .ok (.success 0x1234 1 7 1 [20, 30]) := by
  have ha := C8_image_block_amended provider8 0 0x1234 1 6 0 64 0 0
  have hz := C8_image_block_amended zeroProvider 1 0x1234 1 7 3 64 0 0
  have hm := C8_image_block_amended provider8 0 0x1234 1 7 4 64 0 0
  have hs := C8_image_block_amended provider8 0 0x1234 1 7 1 2 0 0
  refine ⟨ha.1 (Or.inr ⟨img8, rfl, by decide⟩), ?_, ?_, ?_⟩
  · exact (hz.2 zeroImg rfl rfl).1 rfl
  · exact (hm.2 img8 rfl rfl).2.1 (by decide) (by decide)
  · exact (hs.2 img8 rfl rfl).2.2 (by decide)

/-- C9: `query_next_image` answers NO_IMAGE_AVAILABLE when the provider
has no image for (vendor, type); when an image exists it answers SUCCESS
with exactly that image's identity, version and total size if the
eligibility predicate accepts it, and NO_IMAGE_AVAILABLE otherwise; the
handler reads no mutable state and performs no mutation (it is a pure
function of the provider and the request). -/
theorem C9_query_next_image (provider : Nat → Nat → Option OtaImage)
    (fc mid ity cv hv : Nat) :
    (provider mid ity = none → handle_query_next_image provider fc mid ity cv hv = .noImage)
    ∧ (∀ img, provider mid ity = some img →
      (img.shouldUpdate mid ity cv hv = true →
        handle_query_next_image provider fc mid ity cv hv
          = .success img.key_manufacturer_id img.key_image_type img.version
              img.data.length)
      ∧ (img.shouldUpdate mid ity cv hv = false →
        handle_query_next_image provider fc mid ity cv hv = .noImage)) := by
  refine ⟨?_, ?_⟩
  · intro h
    simp [handle_query_next_image, h]
  · intro img hi
    constructor
    · intro hu
      simp [handle_query_next_image, hi, hu]
    · intro hu
      simp [handle_query_next_image, hi, hu]

/-- Witness for C9: a missing image, an eligible image and an ineligible
image produce the three specified responses. -/
theorem C9_witness :
    handle_query_next_image provider8 0 0x9999 1 1 1 = .noImage
    ∧ handle_query_next_image provider8 0 0x1234 1 1 1 = .success 0x1234 1 7 4
    ∧ handle_query_next_image provider9 0 0x1234 1 1 1 = .noImage := by
  have hn := C9_query_next_image provider8 0 0x9999 1 1 1
  have he := C9_query_next_image provider8 0 0x1234 1 1 1
  have hi := C9_query_next_image provider9 0 0x1234 1 1 1
  exact ⟨hn.1 rfl, (he.2 img8 rfl).1 rfl, (hi.2 img9 rfl).2 rfl⟩

/-- C10: `permit(duration)` with duration outside [0, 254] fails the
assertion and leaves the commissioning-window expiry unchanged; with
duration in [0, 254] it sets the expiry to now + duration and then
broadcasts, and a broadcast failure is reported to the caller without
rolling back the already-written expiry. -/
theorem C10_permit_validation (s : AppState) (now : Nat) (time_s : Int)
    (broadcastFails : Bool) :
    ((time_s < 0 ∨ 254 < time_s) →
      permit s now time_s broadcastFails = (s, .error "AssertionError"))
    ∧ (0 ≤ time_s → time_s ≤ 254 →
      (permit s now time_s broadcastFails).1
        = {s with coordinatorGP :=
            {s.coordinatorGP with joiningAllowUntil := some (now + time_s.toNat)}}
      ∧ ((permit s now time_s broadcastFails).2 = .ok () ↔ broadcastFails = false)) := by
  constructor
  · intro h
    have hn : ¬ (0 ≤ time_s ∧ time_s ≤ 254) := by omega
    simp [permit, hn]
  · intro h1 h2
    have hp : (0 ≤ time_s ∧ time_s ≤ 254) := ⟨h1, h2⟩
    constructor
    · simp [permit, hp]
    · cases broadcastFails <;> simp [permit, hp]

/-- Witness for C10: `permit(255)` and `permit(-1)` are rejected without
touching the stored expiry; `permit(60)` sets the expiry to now + 60 even
when the broadcast fails, and the failure is reported to the caller. -/
theorem C10_witness :
    permit s0 1000 255 false = (s0, .error "AssertionError")
    ∧ permit s0 1000 (-1) false = (s0, .error "AssertionError")
    ∧ (permit s0 1000 60 true).1
        = {s0 with coordinatorGP :=
            {s0.coordinatorGP with joiningAllowUntil := some 1060}}
    ∧ ¬ ((permit s0 1000 60 true).2 = .ok ()) := by
  have h255 := C10_permit_validation s0 1000 255 false
  have hm1 := C10_permit_validation s0 1000 (-1) false
  have h60 := C10_permit_validation s0 1000 60 true
  refine ⟨h255.1 (Or.inr (by omega)), hm1.1 (Or.inl (by omega)), ?_, ?_⟩
  · exact (h60.2 (by omega) (by omega)).1
  · intro h
    have := ((h60.2 (by omega) (by omega)).2).mp h
    exact Bool.noConfusion this
